/-
Verification of the asynchronous subprocess-execution service in
`src/services/process.py` (class `ProcessRunnerService`).

The Python code coordinates three concurrent activities per `run()` call:
waiting for process exit, pumping stdout and pumping stderr.  The scheduling
is deterministic from the point of view of the observable contract (what ends
up in the buffers, which signals are sent and when, what `run` returns), so we
embed it as pure functions over:

  * `ProcessBehavior` — the environment: whether the OS can spawn the process
    (`anyio.open_process` succeeding), the process's natural exit time and
    exit code, the timestamped chunks it writes to each stream while alive,
    and how it responds to the graceful-terminate signal;
  * `Service` — the fields of `ProcessRunnerService` (`cmd`, `cwd`, the two
    callbacks, `timeout`, `terminate_grace_period`, the two history buffers
    and the `_process` handle slot);
  * an event trace (`TermEvent`) recording process exit and the
    terminate/kill signals with the times at which they are sent, so the
    temporal ordering claims about the termination state machine are statable.

Durations and instants are modelled as `Nat` ticks (the Python floats are
only compared and added).  A user callback is a function that either returns
or raises; raising is modelled as `Except.error` carrying the message.
"hello" `async` callbacks and sync callbacks run through different await
paths in the code (`await callback(text)` vs `anyio.to_thread.run_sync`) but
both are awaited to completion before the chunk is written, so one callback
type models both.
-/
import Mathlib

namespace ProcessRunner

/-- A user callback for one text chunk: it either returns (`.ok`) or raises
an exception (`.error msg`), mirroring `Callable[[str], Any]` under
`try/except Exception`. -/
def Callback : Type := String → Except String Unit

/-- The environment of one `run()` call: what the OS and the spawned process
do.  `stdoutChunks`/`stderrChunks` are the chunks the process would write to
each stream if never terminated, tagged with the tick at which they are
produced; a chunk is actually produced only while the process is alive.
`termResponse = some r` means the process exits `r` ticks after receiving the
graceful-terminate signal; `none` means it ignores the signal. -/
structure ProcessBehavior where
  spawnOk : Bool
  exitCode : Int
  exitTime : Nat
  stdoutChunks : List (Nat × String)
  stderrChunks : List (Nat × String)
  termResponse : Option Nat

/-- The state of a `ProcessRunnerService` instance: constructor arguments
plus the two `io.StringIO` history buffers (modelled as the accumulated
string) and the `_process` handle slot (modelled by presence). -/
structure Service where
  cmd : List String
  cwd : String
  stdout_callback : Option Callback
  stderr_callback : Option Callback
  timeout : Option Nat
  terminate_grace_period : Nat
  stdoutHistory : String
  stderrHistory : String
  processHandle : Option Unit

/-- `ProcessRunnerService.__init__`: records the arguments, creates empty
history buffers, leaves `_process = None` (defaults in the source:
`cwd=Path()`, callbacks `None`, `timeout=None`, grace period 10). -/
def init (cmd : List String) (cwd : String) (stdout_callback : Option Callback)
    (stderr_callback : Option Callback) (timeout : Option Nat)
    (terminate_grace_period : Nat) : Service :=
  { cmd := cmd
    cwd := cwd
    stdout_callback := stdout_callback
    stderr_callback := stderr_callback
    timeout := timeout
    terminate_grace_period := terminate_grace_period
    stdoutHistory := ""
    stderrHistory := ""
    processHandle := none }

/-- Property `stdout`: `self._stdout_history.getvalue()`. -/
def Service.stdout (s : Service) : String := s.stdoutHistory

/-- Property `stderr`: `self._stderr_history.getvalue()`. -/
def Service.stderr (s : Service) : String := s.stderrHistory

/-- Property `is_running`: `self._process is not None`. -/
def Service.is_running (s : Service) : Bool := s.processHandle.isSome

/-- `clear_history()`: replaces both history buffers by fresh empty
`io.StringIO` objects; touches no other attribute. -/
def clear_history (s : Service) : Service :=
  { s with stdoutHistory := "", stderrHistory := "" }

/-- Result of `_handle_stream` on one stream: the final buffer contents, how
many times the callback was invoked, and the callback exceptions that were
caught and logged (in order). -/
structure PumpResult where
  buffer : String
  calls : Nat
  caught : List String
deriving DecidableEq, Repr

/-- `_handle_stream(stream, callback, buffer)`: `async for text in stream`
— for each chunk, if a callback is present it is awaited inside
`try/except Exception` (the exception is logged and discarded), and then,
unconditionally, `buffer.write(text)`.  The loop only ends at end-of-stream
(`anyio.EndOfStream` is caught as normal termination), so every chunk of the
input is consumed. -/
def handleStream : List String → Option Callback → String → PumpResult
  | [], _, buffer => { buffer := buffer, calls := 0, caught := [] }
  | text :: rest, callback, buffer =>
    let caughtHere : List String :=
      match callback with
      | none => []
      | some f =>
        match f text with
        | .ok _ => []
        | .error e => [e]
    let r := handleStream rest callback (buffer ++ text)
    { buffer := r.buffer
      calls := (match callback with | none => 0 | some _ => 1) + r.calls
      caught := caughtHere ++ r.caught }

/-- Events observable on the process-control side of a run, each tagged with
the tick at which it happens. -/
inductive TermEvent where
  | terminateSent (t : Nat)
  | killSent (t : Nat)
  | exited (t : Nat)
deriving DecidableEq, Repr

/-- `terminate()`, as the sequence of process-control events it produces when
called at tick `now`.  `hasProcess` is the guard `if self._process:`;
`exitsAfter` is how long after the graceful signal the process takes to exit
(for any reason — honoring the signal or exiting naturally), `none` if it
never does.  The body: send `terminate()`, then `anyio.fail_after(grace):
await wait()`; if the wait finishes within the grace period the process
exited gracefully, otherwise the `TimeoutError` branch sends `kill()`. -/
def terminate (hasProcess : Bool) (grace : Nat) (exitsAfter : Option Nat)
    (now : Nat) : List TermEvent :=
  if hasProcess then
    .terminateSent now ::
      (match exitsAfter with
       | some d => if d ≤ grace then [.exited (now + d)] else [.killSent (now + grace)]
       | none => [.killSent (now + grace)])
  else []

/-- The tick at which the process is dead after a `terminate()` issued at
`now`: at its own exit if that falls within the grace period, otherwise at
`now + grace` when `kill()` ends it. -/
def terminateDeath (grace : Nat) (exitsAfter : Option Nat) (now : Nat) : Nat :=
  match exitsAfter with
  | some d => if d ≤ grace then now + d else now + grace
  | none => now + grace

/-- `terminate()` does not write to any attribute of the service instance:
it reads `self._process` and `self.terminate_grace_period` only.  This is
the state transition of a `terminate()` call, paired with its events. -/
def terminateStep (s : Service) (exitsAfter : Option Nat) (now : Nat) :
    Service × List TermEvent :=
  (s, terminate s.processHandle.isSome s.terminate_grace_period exitsAfter now)

/-- The chunks a process actually writes to one stream before it dies at
tick `death`, in arrival order. -/
def producedChunks (chunks : List (Nat × String)) (death : Nat) : List String :=
  (chunks.filter (fun c => c.1 < death)).map Prod.snd

/-- Errors `run()` can raise: the `OSError` from `anyio.open_process`
propagating out, or `ProcessTimeoutError`. -/
inductive RunError where
  | spawnError
  | processTimeout
deriving DecidableEq, Repr

/-- Everything observable about one `run()` call: the returned triple or the
raised error, the post-call instance state, the process-control events, and
how many times each callback was invoked. -/
structure RunOutcome where
  result : Except RunError (Option Int × String × String)
  state : Service
  events : List TermEvent
  stdoutCalls : Nat
  stderrCalls : Nat

/-- How long after a terminate signal sent at tick `t` the process exits on
its own: it honors the signal after `termResponse` ticks if it would not
have exited naturally first. -/
def exitsAfterSignal (pb : ProcessBehavior) (t : Nat) : Option Nat :=
  match pb.termResponse with
  | some r => some (min r (pb.exitTime - t))
  | none => some (pb.exitTime - t)

/-- The non-timeout completion of `run()` (reached when no timeout is
configured, or when the process exits before the deadline): the pumps drain
to EOF, the task group joins, and the triple
`(process.returncode, self.stdout, self.stderr)` is returned; the `finally`
clears `self._process`. -/
def runCompleted (s0 : Service) (pb : ProcessBehavior) : RunOutcome :=
  let out := handleStream (producedChunks pb.stdoutChunks pb.exitTime)
      s0.stdout_callback ""
  let err := handleStream (producedChunks pb.stderrChunks pb.exitTime)
      s0.stderr_callback ""
  { result := .ok (some pb.exitCode, out.buffer, err.buffer)
    state := { s0 with stdoutHistory := out.buffer
                       stderrHistory := err.buffer
                       processHandle := none }
    events := [.exited pb.exitTime]
    stdoutCalls := out.calls
    stderrCalls := err.calls }

/-- The timeout path of `run()`, with the deadline having fired at tick `t`:
`await self.terminate()` runs to completion, `is_timed_out` is set, the
pumps still drain to EOF (the `fail_after` scope wraps only `process.wait()`,
and the cancellation artifacts from the task-group teardown are suppressed
by the `except* get_cancelled_exc_class` handler), and then
`ProcessTimeoutError` is raised; the `finally` clears `self._process`. -/
def runTimedOut (s0 : Service) (pb : ProcessBehavior) (t : Nat) : RunOutcome :=
  let exitsAfter := exitsAfterSignal pb t
  let evs := terminate true s0.terminate_grace_period exitsAfter t
  let death := terminateDeath s0.terminate_grace_period exitsAfter t
  let out := handleStream (producedChunks pb.stdoutChunks death)
      s0.stdout_callback ""
  let err := handleStream (producedChunks pb.stderrChunks death)
      s0.stderr_callback ""
  { result := .error .processTimeout
    state := { s0 with stdoutHistory := out.buffer
                       stderrHistory := err.buffer
                       processHandle := none }
    events := evs
    stdoutCalls := out.calls
    stderrCalls := err.calls }

/-- `run()`:
1. reinitialize both history buffers;
2. `anyio.open_process` — on failure the `OSError` propagates with nothing
   else done (the `finally` still sets `self._process = None`);
3. start both stream pumps and wait for exit, with `anyio.fail_after`
   applied to the wait alone when a timeout is configured;
4. if the deadline fires before exit (`timeout < exitTime`; exit at the
   deadline itself is observed by the wait), terminate and raise
   `ProcessTimeoutError` after the pumps drain; otherwise return
   `(returncode, stdout, stderr)`. -/
def run (s : Service) (pb : ProcessBehavior) : RunOutcome :=
  let s0 := { s with stdoutHistory := "", stderrHistory := "" }
  if pb.spawnOk then
    match s.timeout with
    | none => runCompleted s0 pb
    | some t =>
      if t < pb.exitTime then runTimedOut s0 pb t
      else runCompleted s0 pb
  else
    { result := .error .spawnError
      state := { s0 with processHandle := none }
      events := []
      stdoutCalls := 0
      stderrCalls := 0 }

/-- The keyword parameters `anyio.run` itself accepts (both keyword-only in
its signature `run(func, *args, backend="asyncio", backend_options=None)`). -/
def anyioRunKeywords : List String := ["backend", "backend_options"]

/-- Outcome of the synchronous wrapper: either a Python-level `TypeError`
raised while binding arguments (before any event loop or process exists), or
the completed `run()` outcome. -/
inductive SyncOutcome where
  | typeErr
  | completed (o : RunOutcome)

/-- `run_sync(**kwargs)` is `anyio.run(self.run, **kwargs)`: the keyword
arguments bind to `anyio.run`'s own keyword parameters, not to `self.run`
(positional `*args` is left empty), so an unknown keyword such as `env`
raises `TypeError` before anything is spawned, and no keyword is ever
forwarded to `self.run` or `anyio.open_process`. -/
def run_sync (s : Service) (pb : ProcessBehavior) (kwargs : List String) :
    SyncOutcome :=
  if kwargs.all (fun k => anyioRunKeywords.contains k) then
    .completed (run s pb)
  else
    .typeErr

/-- Concatenation of a chunk list in arrival order. -/
def concatChunks : List String → String
  | [] => ""
  | c :: rest => c ++ concatChunks rest

theorem handleStream_buffer (l : List String) (cb : Option Callback)
    (buf : String) : (handleStream l cb buf).buffer = buf ++ concatChunks l := by
  induction l generalizing buf with
  | nil => simp [handleStream, concatChunks]
  | cons c rest ih => simp [handleStream, concatChunks, ih, String.append_assoc]

theorem handleStream_calls (l : List String) (cb : Option Callback)
    (buf : String) :
    (handleStream l cb buf).calls = if cb.isSome then l.length else 0 := by
  induction l generalizing buf with
  | nil => simp [handleStream]
  | cons c rest ih =>
    cases cb with
    | none => simp [handleStream, ih]
    | some f => simp [handleStream, ih, Nat.add_comm]

theorem producedChunks_of_all_lt (chunks : List (Nat × String)) (death : Nat)
    (h : ∀ c ∈ chunks, c.1 < death) :
    producedChunks chunks death = chunks.map Prod.snd := by
  unfold producedChunks
  rw [List.filter_eq_self.mpr]
  intro c hc
  simpa using h c hc

/-- C8: `clear_history()` resets both accumulated outputs, so the `stdout`
and `stderr` accessors subsequently read as empty strings, and it modifies
nothing else on the instance: every other field, and in particular
`is_running`, has the same value immediately before and after the call, in
every state. -/
theorem clear_history_resets_buffers_only (s : Service) :
    (clear_history s).stdout = "" ∧ (clear_history s).stderr = "" ∧
    (clear_history s).is_running = s.is_running ∧
    (clear_history s).cmd = s.cmd ∧ (clear_history s).cwd = s.cwd ∧
    (clear_history s).stdout_callback = s.stdout_callback ∧
    (clear_history s).stderr_callback = s.stderr_callback ∧
    (clear_history s).timeout = s.timeout ∧
    (clear_history s).terminate_grace_period = s.terminate_grace_period ∧
    (clear_history s).processHandle = s.processHandle := by
  simp [clear_history, Service.stdout, Service.stderr, Service.is_running]

/-- C9: `is_running` is false on a freshly constructed instance, and after
any `run()` call finishes — normal return, timeout error or spawn error —
`is_running` is false again, because every exit path from `run()` clears the
process handle (the `finally` block). -/
theorem is_running_false_outside_run (cmd : List String) (cwd : String)
    (socb secb : Option Callback) (tmo : Option Nat) (gp : Nat)
    (s : Service) (pb : ProcessBehavior) :
    (init cmd cwd socb secb tmo gp).is_running = false ∧
    (run s pb).state.is_running = false := by
  constructor
  · simp [init, Service.is_running]
  · unfold run
    cases hsp : pb.spawnOk with
    | false => simp [Service.is_running]
    | true =>
      cases hto : s.timeout with
      | none => simp [runCompleted, Service.is_running]
      | some t =>
        by_cases hlt : t < pb.exitTime <;>
          simp [hlt, runCompleted, runTimedOut, Service.is_running]

/-- C7: if the OS cannot create the process, `run()` fails with a spawn
error: no result triple (not even partial), no callback is ever invoked,
and the output buffers are not populated — the `stdout`/`stderr` accessors
read as empty strings after the failure (and no process handle remains). -/
theorem spawn_failure_no_partial_result (s : Service) (pb : ProcessBehavior)
    (h : pb.spawnOk = false) :
    (run s pb).result = .error .spawnError ∧
    (run s pb).state.stdout = "" ∧ (run s pb).state.stderr = "" ∧
    (run s pb).stdoutCalls = 0 ∧ (run s pb).stderrCalls = 0 ∧
    (run s pb).state.is_running = false := by
  unfold run
  simp [h, Service.stdout, Service.stderr, Service.is_running]

/-- Witness for C7 at a concrete input: spawning `["nosuchbinary"]` fails. -/
theorem spawn_failure_no_partial_result_witness :
    (run (init ["nosuchbinary"] "." none none none 10)
        { spawnOk := false, exitCode := 0, exitTime := 0, stdoutChunks := [],
          stderrChunks := [], termResponse := none }).result
      = .error .spawnError ∧
    (run (init ["nosuchbinary"] "." none none none 10)
        { spawnOk := false, exitCode := 0, exitTime := 0, stdoutChunks := [],
          stderrChunks := [], termResponse := none }).state.stdout = "" := by
  have h := spawn_failure_no_partial_result
    (init ["nosuchbinary"] "." none none none 10)
    { spawnOk := false, exitCode := 0, exitTime := 0, stdoutChunks := [],
      stderrChunks := [], termResponse := none } rfl
  exact ⟨h.1, h.2.1⟩

/-- C1: whenever the process spawns successfully and exits before any
configured timeout elapses, `run` returns the triple
(exit code, stdout text, stderr text), where each stream's text is exactly
the concatenation, in arrival order, of every chunk the process wrote to it
(N bytes captured for N bytes produced), regardless of which callbacks are
supplied. -/
theorem run_returns_exit_code_and_full_output (s : Service)
    (pb : ProcessBehavior) (hspawn : pb.spawnOk = true)
    (hno : ∀ t, s.timeout = some t → pb.exitTime ≤ t)
    (hout : ∀ c ∈ pb.stdoutChunks, c.1 < pb.exitTime)
    (herr : ∀ c ∈ pb.stderrChunks, c.1 < pb.exitTime) :
    (run s pb).result = .ok (some pb.exitCode,
      concatChunks (pb.stdoutChunks.map Prod.snd),
      concatChunks (pb.stderrChunks.map Prod.snd)) := by
  have hcompleted : ∀ s0 : Service, (runCompleted s0 pb).result
      = .ok (some pb.exitCode,
          concatChunks (pb.stdoutChunks.map Prod.snd),
          concatChunks (pb.stderrChunks.map Prod.snd)) := by
    intro s0
    unfold runCompleted
    rw [producedChunks_of_all_lt pb.stdoutChunks pb.exitTime hout,
        producedChunks_of_all_lt pb.stderrChunks pb.exitTime herr]
    simp [handleStream_buffer]
  unfold run
  cases hto : s.timeout with
  | none => simp [hspawn, hcompleted]
  | some t =>
    have hle : ¬ t < pb.exitTime := Nat.not_lt.mpr (hno t hto)
    simp [hspawn, hle, hcompleted]

/-- Witness for C1: a command printing "hello" and exiting 0 with no timeout
yields exit code 0, stdout `"hello\n"`, empty stderr. -/
theorem run_returns_exit_code_and_full_output_witness :
    (run (init ["echo", "hello"] "." none none none 10)
        { spawnOk := true, exitCode := 0, exitTime := 1,
          stdoutChunks := [(0, "hello\n")], stderrChunks := [],
          termResponse := none }).result
      = .ok (some 0, "hello\n", "") := by
  have h := run_returns_exit_code_and_full_output
    (init ["echo", "hello"] "." none none none 10)
    { spawnOk := true, exitCode := 0, exitTime := 1,
      stdoutChunks := [(0, "hello\n")], stderrChunks := [],
      termResponse := none }
    rfl (by intro t ht; simp [init] at ht) (by decide) (by decide)
  rw [h]
  rfl

theorem run_result_eq (s : Service) (pb : ProcessBehavior) :
    (run s pb).result =
      (if pb.spawnOk then
        match s.timeout with
        | none => .ok (some pb.exitCode,
            concatChunks (producedChunks pb.stdoutChunks pb.exitTime),
            concatChunks (producedChunks pb.stderrChunks pb.exitTime))
        | some t =>
          if t < pb.exitTime then .error .processTimeout
          else .ok (some pb.exitCode,
            concatChunks (producedChunks pb.stdoutChunks pb.exitTime),
            concatChunks (producedChunks pb.stderrChunks pb.exitTime))
      else .error .spawnError) := by
  unfold run
  cases hsp : pb.spawnOk with
  | false => simp
  | true =>
    cases hto : s.timeout with
    | none => simp [runCompleted, handleStream_buffer]
    | some t =>
      by_cases hlt : t < pb.exitTime <;>
        simp [hlt, runTimedOut, runCompleted, handleStream_buffer]

/-- C2: `run()` fails with `ProcessTimeoutError` if and only if a timeout is
configured and the process does not exit within it; on that path the
termination sequence is attempted (the graceful signal is the first
process-control event) and the error is raised only after the stream pumps
have fully drained, so the buffers hold the drained output; no result triple
is returned.  With no timeout configured a timeout error is impossible. -/
theorem run_timeout_error_iff (s : Service) (pb : ProcessBehavior)
    (hspawn : pb.spawnOk = true) :
    ((run s pb).result = .error .processTimeout ↔
      ∃ t, s.timeout = some t ∧ t < pb.exitTime) ∧
    (∀ t, s.timeout = some t → t < pb.exitTime →
      (run s pb).events.head? = some (.terminateSent t) ∧
      (run s pb).state.stdout = concatChunks (producedChunks pb.stdoutChunks
          (terminateDeath s.terminate_grace_period (exitsAfterSignal pb t) t)) ∧
      (run s pb).state.stderr = concatChunks (producedChunks pb.stderrChunks
          (terminateDeath s.terminate_grace_period (exitsAfterSignal pb t) t))) := by
  unfold run
  cases hto : s.timeout with
  | none =>
    refine ⟨?_, ?_⟩
    · simp [hspawn, runCompleted]
    · intro t ht
      exact absurd ht (by simp)
  | some t =>
    by_cases hlt : t < pb.exitTime
    · refine ⟨⟨fun _ => ⟨t, rfl, hlt⟩, fun _ => by simp [hspawn, hlt, runTimedOut]⟩, ?_⟩
      intro t' ht' hlt'
      obtain rfl : t' = t := by injection ht' with h; exact h.symm
      refine ⟨?_, ?_, ?_⟩
      · simp [hspawn, hlt, runTimedOut, terminate]
      · simp [hspawn, hlt, runTimedOut, Service.stdout, handleStream_buffer]
      · simp [hspawn, hlt, runTimedOut, Service.stderr, handleStream_buffer]
    · refine ⟨⟨fun hres => ?_, ?_⟩, ?_⟩
      · exfalso
        simp [hspawn, hlt, runCompleted] at hres
      · rintro ⟨t', ht', hlt'⟩
        obtain rfl : t' = t := by injection ht' with h; exact h.symm
        exact absurd hlt' hlt
      · intro t' ht' hlt'
        obtain rfl : t' = t := by injection ht' with h; exact h.symm
        exact absurd hlt' hlt

/-- Witness for C2: `sleep 5` under a 1-tick timeout raises the timeout
error with the graceful signal sent at the deadline. -/
theorem run_timeout_error_iff_witness :
    (run (init ["sleep", "5"] "." none none (some 1) 10)
        { spawnOk := true, exitCode := 0, exitTime := 5, stdoutChunks := [],
          stderrChunks := [], termResponse := some 0 }).result
      = .error .processTimeout ∧
    (run (init ["sleep", "5"] "." none none (some 1) 10)
        { spawnOk := true, exitCode := 0, exitTime := 5, stdoutChunks := [],
          stderrChunks := [], termResponse := some 0 }).events.head?
      = some (.terminateSent 1) := by
  have h := run_timeout_error_iff (init ["sleep", "5"] "." none none (some 1) 10)
    { spawnOk := true, exitCode := 0, exitTime := 5, stdoutChunks := [],
      stderrChunks := [], termResponse := some 0 } rfl
  exact ⟨h.1.mpr ⟨1, rfl, by decide⟩, (h.2 1 rfl (by decide)).1⟩

/-- C3: when the timeout fires, the stream pumps are not cancelled: each
pump still visits every chunk produced before the process died (the callback
is invoked once per produced chunk whenever one is supplied) and after
`run()` raises the timeout error the accessors contain exactly the
concatenation of every chunk the process produced before termination — no
buffered output is lost. -/
theorem timeout_cancels_only_exit_wait (s : Service) (pb : ProcessBehavior)
    (t : Nat) (hspawn : pb.spawnOk = true) (ht : s.timeout = some t)
    (hlt : t < pb.exitTime) :
    (run s pb).result = .error .processTimeout ∧
    (run s pb).state.stdout = concatChunks (producedChunks pb.stdoutChunks
        (terminateDeath s.terminate_grace_period (exitsAfterSignal pb t) t)) ∧
    (run s pb).state.stderr = concatChunks (producedChunks pb.stderrChunks
        (terminateDeath s.terminate_grace_period (exitsAfterSignal pb t) t)) ∧
    (run s pb).stdoutCalls = (if s.stdout_callback.isSome then
        (producedChunks pb.stdoutChunks
          (terminateDeath s.terminate_grace_period (exitsAfterSignal pb t) t)).length
      else 0) ∧
    (run s pb).stderrCalls = (if s.stderr_callback.isSome then
        (producedChunks pb.stderrChunks
          (terminateDeath s.terminate_grace_period (exitsAfterSignal pb t) t)).length
      else 0) := by
  unfold run
  simp only [ht]
  refine ⟨?_, ?_, ?_, ?_, ?_⟩ <;>
    simp [hspawn, hlt, runTimedOut, Service.stdout, Service.stderr,
      handleStream_buffer, handleStream_calls]

/-- Witness for C3: a process killed at tick 3 (timeout 1 + grace 2) had
produced "a" and "b" but not yet "c"; both survive into `stdout`. -/
theorem timeout_cancels_only_exit_wait_witness :
    (run (init ["w"] "." none none (some 1) 2)
        { spawnOk := true, exitCode := 0, exitTime := 20,
          stdoutChunks := [(0, "a"), (2, "b"), (10, "c")], stderrChunks := [],
          termResponse := none }).state.stdout = "ab" := by
  have h := timeout_cancels_only_exit_wait (init ["w"] "." none none (some 1) 2)
    { spawnOk := true, exitCode := 0, exitTime := 20,
      stdoutChunks := [(0, "a"), (2, "b"), (10, "c")], stderrChunks := [],
      termResponse := none } 1 rfl rfl (by decide)
  rw [h.2.1]
  rfl

/-- C4: a callback that raises on every invocation changes nothing: each
chunk is still appended (the pump's buffer is the full concatenation, so
draining ran to end-of-stream), the captured output equals that of the same
pump with no callback, and the `run()` result with such callbacks on both
streams equals the result with no callbacks — `run()` never fails because of
callback errors. -/
theorem callback_errors_isolated (chunks : List String) (buf : String)
    (f g : Callback) (hf : ∀ c, ∃ e, f c = Except.error e)
    (s : Service) (pb : ProcessBehavior) :
    (handleStream chunks (some f) buf).buffer = buf ++ concatChunks chunks ∧
    (handleStream chunks (some f) buf).buffer
      = (handleStream chunks none buf).buffer ∧
    (run { s with stdout_callback := some f, stderr_callback := some g } pb).result
      = (run { s with stdout_callback := none, stderr_callback := none } pb).result := by
  refine ⟨handleStream_buffer chunks (some f) buf, ?_, ?_⟩
  · rw [handleStream_buffer, handleStream_buffer]
  · rw [run_result_eq, run_result_eq]

/-- Witness for C4: a callback raising "boom" on every chunk leaves capture
and result untouched. -/
theorem callback_errors_isolated_witness :
    (handleStream ["x", "y"] (some fun _ => Except.error "boom") "").buffer
      = "" ++ concatChunks ["x", "y"] ∧
    (run { cmd := ["c"], cwd := ".",
           stdout_callback := some fun _ => Except.error "boom",
           stderr_callback := some fun _ => Except.error "boom",
           timeout := none, terminate_grace_period := 10, stdoutHistory := "",
           stderrHistory := "", processHandle := none }
        { spawnOk := true, exitCode := 0, exitTime := 1,
          stdoutChunks := [(0, "x"), (0, "y")], stderrChunks := [],
          termResponse := none }).result
      = (run { cmd := ["c"], cwd := ".", stdout_callback := none,
               stderr_callback := none, timeout := none,
               terminate_grace_period := 10, stdoutHistory := "",
               stderrHistory := "", processHandle := none }
          { spawnOk := true, exitCode := 0, exitTime := 1,
            stdoutChunks := [(0, "x"), (0, "y")], stderrChunks := [],
            termResponse := none }).result := by
  have h := callback_errors_isolated ["x", "y"] ""
    (fun _ => Except.error "boom") (fun _ => Except.error "boom")
    (fun _ => ⟨"boom", rfl⟩)
    { cmd := ["c"], cwd := ".", stdout_callback := none, stderr_callback := none,
      timeout := none, terminate_grace_period := 10, stdoutHistory := "",
      stderrHistory := "", processHandle := none }
    { spawnOk := true, exitCode := 0, exitTime := 1,
      stdoutChunks := [(0, "x"), (0, "y")], stderrChunks := [],
      termResponse := none }
  exact ⟨h.1, h.2.2⟩

/-- C5: the termination sequence is strictly ordered: the graceful signal is
always the first event; a process exiting within the grace period never
receives the kill signal; a process that does not exit receives the kill
signal exactly when the grace period has fully elapsed — never before — and
that kill send is always present in the event sequence. -/
theorem terminate_signal_ordering (grace : Nat) (exitsAfter : Option Nat)
    (now : Nat) :
    (∀ d, exitsAfter = some d → d ≤ grace →
      terminate true grace exitsAfter now
        = [.terminateSent now, .exited (now + d)]) ∧
    (∀ d, exitsAfter = some d → grace < d →
      terminate true grace exitsAfter now
        = [.terminateSent now, .killSent (now + grace)]) ∧
    (exitsAfter = none →
      terminate true grace exitsAfter now
        = [.terminateSent now, .killSent (now + grace)]) := by
  refine ⟨?_, ?_, ?_⟩
  · rintro d rfl hd; simp [terminate, hd]
  · rintro d rfl hd; simp [terminate, Nat.not_le.mpr hd]
  · rintro rfl; simp [terminate]

/-- Witness for C5: a signal-ignoring process is killed exactly at
`now + grace`; one exiting after 3 ticks under a 10-tick grace is never
killed. -/
theorem terminate_signal_ordering_witness :
    terminate true 10 none 0 = [.terminateSent 0, .killSent 10] ∧
    terminate true 10 (some 3) 0 = [.terminateSent 0, .exited 3] := by
  have h1 := (terminate_signal_ordering 10 none 0).2.2 rfl
  have h2 := (terminate_signal_ordering 10 (some 3) 0).1 3 rfl (by decide)
  exact ⟨h1, h2⟩

/-- A service state during an in-flight run: a process handle is recorded. -/
def busyService : Service :=
  { cmd := ["sleep", "100"], cwd := ".", stdout_callback := none,
    stderr_callback := none, timeout := none, terminate_grace_period := 10,
    stdoutHistory := "", stderrHistory := "", processHandle := some () }

/-- C6 counterexample: `terminate()` has no reentrancy guard.  A first
`terminate()` call leaves the instance state unchanged (in particular the
process handle is still set), so a second call issued while the first is in
flight passes the `if self._process:` guard again: it sends the graceful
signal a second time and starts a second grace-period wait, rather than
being a no-op. -/
theorem terminate_reentrant_not_noop :
    (terminateStep (terminateStep busyService none 0).1 none 0).2
      = [.terminateSent 0, .killSent 10] ∧
    (terminateStep (terminateStep busyService none 0).1 none 0).2 ≠ [] :=
  ⟨rfl, List.cons_ne_nil _ _⟩

/-- C6 amended: `terminate()` is a no-op exactly when no process handle is
recorded (fresh instance, or after `run()` has completed and cleared the
handle); `terminate()` itself never modifies the instance state, so a second
`terminate()` call issued while a first is in flight repeats the full
sequence — it sends the graceful signal again and starts another
grace-period wait. -/
theorem terminate_noop_only_without_handle (s : Service)
    (exitsAfter : Option Nat) (now : Nat) :
    (s.processHandle = none → terminateStep s exitsAfter now = (s, [])) ∧
    (terminateStep s exitsAfter now).1 = s ∧
    (s.processHandle = some () →
      (terminateStep s exitsAfter now).2.head? = some (.terminateSent now)) := by
  refine ⟨?_, rfl, ?_⟩
  · intro h; simp [terminateStep, terminate, h]
  · intro h; simp [terminateStep, terminate, h]

/-- Witness for C6's amended claim: no-op on a fresh instance, signal sent
when a handle is present. -/
theorem terminate_noop_only_without_handle_witness :
    terminateStep (init ["c"] "." none none none 10) none 0
      = (init ["c"] "." none none none 10, []) ∧
    (terminateStep busyService none 5).2.head? = some (.terminateSent 5) := by
  have h1 := (terminate_noop_only_without_handle
    (init ["c"] "." none none none 10) none 0).1 rfl
  have h2 := (terminate_noop_only_without_handle busyService none 5).2.2 rfl
  exact ⟨h1, h2⟩

/-- C10: `run_sync` forwards its keyword arguments to the event-loop runner
(`anyio.run`) rather than to `run()`: any keyword that is not one of
`anyio.run`'s own parameters (for example `env`) raises `TypeError` without
ever spawning the process, while `run_sync()` with no keyword arguments
returns exactly what `run()` would. -/
theorem run_sync_kwargs_hit_event_loop_runner (s : Service)
    (pb : ProcessBehavior) (k : String)
    (hk : k ∉ anyioRunKeywords) :
    run_sync s pb [k] = .typeErr ∧
    (∀ o, run_sync s pb [k] ≠ .completed o) ∧
    run_sync s pb [] = .completed (run s pb) := by
  refine ⟨?_, ?_, ?_⟩
  · simp [run_sync, hk]
  · intro o
    simp [run_sync, hk]
  · simp [run_sync]

/-- Witness for C10 at the spec's example keyword: `env`. -/
theorem run_sync_kwargs_hit_event_loop_runner_witness :
    run_sync (init ["c"] "." none none none 10)
      { spawnOk := true, exitCode := 0, exitTime := 1, stdoutChunks := [],
        stderrChunks := [], termResponse := none } ["env"] = .typeErr := by
  have h := run_sync_kwargs_hit_event_loop_runner
    (init ["c"] "." none none none 10)
    { spawnOk := true, exitCode := 0, exitTime := 1, stdoutChunks := [],
      stderrChunks := [], termResponse := none } "env" (by decide)
  exact h.1

end ProcessRunner
